import Mathlib

set_option maxRecDepth 100000

/-! Verification of the Ogone signature canonicalizer.

Shallow embedding of `django_ogone/security.py` (class `OgoneSignature`):
parameter mappings are lists of key/value entries in dict iteration order,
values are Python scalars (strings, ints, None), and the three supported
hash algorithms (sha1, sha256, sha512) are implemented over byte lists
(`List Nat`, each element a byte).
-/

/-- Big-endian byte rendering of `n` on exactly `k` bytes. -/
def beBytes : Nat → Nat → List Nat
  | 0, _ => []
  | k + 1, n => beBytes k (n / 256) ++ [n % 256]

/-- Split a byte list into consecutive chunks of size `bs` (fuel-driven). -/
def chunksOf (bs : Nat) : Nat → List Nat → List (List Nat)
  | 0, _ => []
  | _, [] => []
  | fuel + 1, l => l.take bs :: chunksOf bs fuel (l.drop bs)

/-- Interpret a byte list as big-endian 32-bit words (4 bytes each). -/
def beWords32 : List Nat → List Nat
  | a :: b :: c :: d :: rest => (((a * 256 + b) * 256 + c) * 256 + d) :: beWords32 rest
  | _ => []

/-- Interpret a byte list as big-endian 64-bit words (8 bytes each). -/
def beWords64 : List Nat → List Nat
  | a :: b :: c :: d :: e :: f :: g :: h :: rest =>
      (((((((a * 256 + b) * 256 + c) * 256 + d) * 256 + e) * 256 + f) * 256 + g) * 256 + h)
        :: beWords64 rest
  | _ => []

/-- Merkle–Damgård padding: append `0x80`, zero bytes, and the big-endian
bit length on `lenBytes` bytes, reaching a multiple of `blockSize`. -/
def padMessage (blockSize lenBytes : Nat) (msg : List Nat) : List Nat :=
  let zeros := (blockSize - (msg.length + 1 + lenBytes) % blockSize) % blockSize
  msg ++ 128 :: (List.replicate zeros 0 ++ beBytes lenBytes (8 * msg.length))

/-- Truncate to a 32-bit word. -/
def w32 (n : Nat) : Nat := n % 4294967296

/-- Truncate to a 64-bit word. -/
def w64 (n : Nat) : Nat := n % 18446744073709551616

/-- 32-bit left rotation (input assumed `< 2^32`). -/
def rotl32 (n k : Nat) : Nat := w32 ((n <<< k) ||| (n >>> (32 - k)))

/-- 32-bit right rotation (input assumed `< 2^32`). -/
def rotr32 (n k : Nat) : Nat := w32 ((n >>> k) ||| (n <<< (32 - k)))

/-- 64-bit right rotation (input assumed `< 2^64`). -/
def rotr64 (n k : Nat) : Nat := w64 ((n >>> k) ||| (n <<< (64 - k)))

/-- Uppercase hexadecimal digit. -/
def hexDigit (n : Nat) : Char := Char.ofNat (if n < 10 then 48 + n else 55 + n)

/-- Uppercase hexadecimal rendering of `n` on exactly `k` digits, big-endian. -/
def hexU : Nat → Nat → List Char
  | 0, _ => []
  | k + 1, n => hexU k (n / 16) ++ [hexDigit (n % 16)]

/-! ## SHA-1 -/

/-- SHA-1 message-schedule extension, kept in reverse order (most recent
word first), so `w[i-3]`, `w[i-8]`, `w[i-14]`, `w[i-16]` sit at indices
2, 7, 13, 15. -/
def sha1ExtendRev : Nat → List Nat → List Nat
  | 0, ws => ws
  | n + 1, ws =>
      sha1ExtendRev n
        (rotl32 (((ws.getD 2 0) ^^^ (ws.getD 7 0)) ^^^ ((ws.getD 13 0) ^^^ (ws.getD 15 0))) 1
          :: ws)

/-- The 80-word SHA-1 message schedule of a 16-word block. -/
def sha1Schedule (w16 : List Nat) : List Nat := (sha1ExtendRev 64 w16.reverse).reverse

/-- One SHA-1 round; `iw` is the round index paired with the schedule word. -/
def sha1Round (st : Nat × Nat × Nat × Nat × Nat) (iw : Nat × Nat) :
    Nat × Nat × Nat × Nat × Nat :=
  let (a, b, c, d, e) := st
  let (i, w) := iw
  let f :=
    if i < 20 then (b &&& c) ||| ((b ^^^ 4294967295) &&& d)
    else if i < 40 then (b ^^^ c) ^^^ d
    else if i < 60 then ((b &&& c) ||| (b &&& d)) ||| (c &&& d)
    else (b ^^^ c) ^^^ d
  let k :=
    if i < 20 then 1518500249
    else if i < 40 then 1859775393
    else if i < 60 then 2400959708
    else 3395469782
  let temp := w32 (rotl32 a 5 + f + e + k + w)
  (temp, a, rotl32 b 30, c, d)

/-- SHA-1 compression of one 64-byte block. -/
def sha1Compress (h : Nat × Nat × Nat × Nat × Nat) (block : List Nat) :
    Nat × Nat × Nat × Nat × Nat :=
  let ws := sha1Schedule (beWords32 block)
  let (a, b, c, d, e) := ((List.range 80).zip ws).foldl sha1Round h
  let (h0, h1, h2, h3, h4) := h
  (w32 (h0 + a), w32 (h1 + b), w32 (h2 + c), w32 (h3 + d), w32 (h4 + e))

/-- SHA-1 digest of a byte list, as an uppercase hexadecimal string. -/
def sha1Hex (msg : List Nat) : String :=
  let padded := padMessage 64 8 msg
  let (h0, h1, h2, h3, h4) :=
    (chunksOf 64 padded.length padded).foldl sha1Compress
      (1732584193, 4023233417, 2562383102, 271733878, 3285377520)
  String.mk (hexU 8 h0 ++ hexU 8 h1 ++ hexU 8 h2 ++ hexU 8 h3 ++ hexU 8 h4)

/-! ## SHA-256 -/

def K256 : List Nat := [
  1116352408, 1899447441, 3049323471, 3921009573, 961987163, 1508970993, 2453635748, 2870763221,
  3624381080, 310598401, 607225278, 1426881987, 1925078388, 2162078206, 2614888103, 3248222580,
  3835390401, 4022224774, 264347078, 604807628, 770255983, 1249150122, 1555081692, 1996064986,
  2554220882, 2821834349, 2952996808, 3210313671, 3336571891, 3584528711, 113926993, 338241895,
  666307205, 773529912, 1294757372, 1396182291, 1695183700, 1986661051, 2177026350, 2456956037,
  2730485921, 2820302411, 3259730800, 3345764771, 3516065817, 3600352804, 4094571909, 275423344,
  430227734, 506948616, 659060556, 883997877, 958139571, 1322822218, 1537002063, 1747873779,
  1955562222, 2024104815, 2227730452, 2361852424, 2428436474, 2756734187, 3204031479, 3329325298]

def sha256Sum0 (x : Nat) : Nat := (rotr32 x 2) ^^^ (rotr32 x 13) ^^^ (rotr32 x 22)
def sha256Sum1 (x : Nat) : Nat := (rotr32 x 6) ^^^ (rotr32 x 11) ^^^ (rotr32 x 25)
def sha256Sig0 (x : Nat) : Nat := (rotr32 x 7) ^^^ (rotr32 x 18) ^^^ (x >>> 3)
def sha256Sig1 (x : Nat) : Nat := (rotr32 x 17) ^^^ (rotr32 x 19) ^^^ (x >>> 10)

/-- SHA-256 schedule extension in reverse order: `w[i-2]`, `w[i-7]`,
`w[i-15]`, `w[i-16]` sit at indices 1, 6, 14, 15. -/
def sha256ExtendRev : Nat → List Nat → List Nat
  | 0, ws => ws
  | n + 1, ws =>
      sha256ExtendRev n
        (w32 (sha256Sig1 (ws.getD 1 0) + ws.getD 6 0 + sha256Sig0 (ws.getD 14 0) + ws.getD 15 0)
          :: ws)

def sha256Schedule (w16 : List Nat) : List Nat := (sha256ExtendRev 48 w16.reverse).reverse

abbrev St8 := Nat × Nat × Nat × Nat × Nat × Nat × Nat × Nat

/-- One SHA-256 round; `kw` is the round constant paired with the schedule word. -/
def sha256Round (st : St8) (kw : Nat × Nat) : St8 :=
  let (a, b, c, d, e, f, g, h) := st
  let (k, w) := kw
  let t1 := w32 (h + sha256Sum1 e + ((e &&& f) ^^^ ((e ^^^ 4294967295) &&& g)) + k + w)
  let t2 := w32 (sha256Sum0 a + (((a &&& b) ^^^ (a &&& c)) ^^^ (b &&& c)))
  (w32 (t1 + t2), a, b, c, w32 (d + t1), e, f, g)

/-- SHA-256 compression of one 64-byte block. -/
def sha256Compress (st : St8) (block : List Nat) : St8 :=
  let ws := sha256Schedule (beWords32 block)
  let (a, b, c, d, e, f, g, h) := (K256.zip ws).foldl sha256Round st
  let (h0, h1, h2, h3, h4, h5, h6, h7) := st
  (w32 (h0 + a), w32 (h1 + b), w32 (h2 + c), w32 (h3 + d),
   w32 (h4 + e), w32 (h5 + f), w32 (h6 + g), w32 (h7 + h))

/-- SHA-256 digest of a byte list, as an uppercase hexadecimal string. -/
def sha256Hex (msg : List Nat) : String :=
  let padded := padMessage 64 8 msg
  let (h0, h1, h2, h3, h4, h5, h6, h7) :=
    (chunksOf 64 padded.length padded).foldl sha256Compress
      (1779033703, 3144134277, 1013904242, 2773480762,
       1359893119, 2600822924, 528734635, 1541459225)
  String.mk (hexU 8 h0 ++ hexU 8 h1 ++ hexU 8 h2 ++ hexU 8 h3 ++
             hexU 8 h4 ++ hexU 8 h5 ++ hexU 8 h6 ++ hexU 8 h7)

/-! ## SHA-512 -/

def K512 : List Nat := [
  4794697086780616226, 8158064640168781261, 13096744586834688815, 16840607885511220156,
  4131703408338449720, 6480981068601479193, 10538285296894168987, 12329834152419229976,
  15566598209576043074, 1334009975649890238, 2608012711638119052, 6128411473006802146,
  8268148722764581231, 9286055187155687089, 11230858885718282805, 13951009754708518548,
  16472876342353939154, 17275323862435702243, 1135362057144423861, 2597628984639134821,
  3308224258029322869, 5365058923640841347, 6679025012923562964, 8573033837759648693,
  10970295158949994411, 12119686244451234320, 12683024718118986047, 13788192230050041572,
  14330467153632333762, 15395433587784984357, 489312712824947311, 1452737877330783856,
  2861767655752347644, 3322285676063803686, 5560940570517711597, 5996557281743188959,
  7280758554555802590, 8532644243296465576, 9350256976987008742, 10552545826968843579,
  11727347734174303076, 12113106623233404929, 14000437183269869457, 14369950271660146224,
  15101387698204529176, 15463397548674623760, 17586052441742319658, 1182934255886127544,
  1847814050463011016, 2177327727835720531, 2830643537854262169, 3796741975233480872,
  4115178125766777443, 5681478168544905931, 6601373596472566643, 7507060721942968483,
  8399075790359081724, 8693463985226723168, 9568029438360202098, 10144078919501101548,
  10430055236837252648, 11840083180663258601, 13761210420658862357, 14299343276471374635,
  14566680578165727644, 15097957966210449927, 16922976911328602910, 17689382322260857208,
  500013540394364858, 748580250866718886, 1242879168328830382, 1977374033974150939,
  2944078676154940804, 3659926193048069267, 4368137639120453308, 4836135668995329356,
  5532061633213252278, 6448918945643986474, 6902733635092675308, 7801388544844847127]

def sha512Sum0 (x : Nat) : Nat := (rotr64 x 28) ^^^ (rotr64 x 34) ^^^ (rotr64 x 39)
def sha512Sum1 (x : Nat) : Nat := (rotr64 x 14) ^^^ (rotr64 x 18) ^^^ (rotr64 x 41)
def sha512Sig0 (x : Nat) : Nat := (rotr64 x 1) ^^^ (rotr64 x 8) ^^^ (x >>> 7)
def sha512Sig1 (x : Nat) : Nat := (rotr64 x 19) ^^^ (rotr64 x 61) ^^^ (x >>> 6)

/-- SHA-512 schedule extension in reverse order: `w[i-2]`, `w[i-7]`,
`w[i-15]`, `w[i-16]` sit at indices 1, 6, 14, 15. -/
def sha512ExtendRev : Nat → List Nat → List Nat
  | 0, ws => ws
  | n + 1, ws =>
      sha512ExtendRev n
        (w64 (sha512Sig1 (ws.getD 1 0) + ws.getD 6 0 + sha512Sig0 (ws.getD 14 0) + ws.getD 15 0)
          :: ws)

def sha512Schedule (w16 : List Nat) : List Nat := (sha512ExtendRev 64 w16.reverse).reverse

/-- One SHA-512 round; `kw` is the round constant paired with the schedule word. -/
def sha512Round (st : St8) (kw : Nat × Nat) : St8 :=
  let (a, b, c, d, e, f, g, h) := st
  let (k, w) := kw
  let t1 := w64 (h + sha512Sum1 e + ((e &&& f) ^^^ ((e ^^^ 18446744073709551615) &&& g)) + k + w)
  let t2 := w64 (sha512Sum0 a + (((a &&& b) ^^^ (a &&& c)) ^^^ (b &&& c)))
  (w64 (t1 + t2), a, b, c, w64 (d + t1), e, f, g)

/-- SHA-512 compression of one 128-byte block. -/
def sha512Compress (st : St8) (block : List Nat) : St8 :=
  let ws := sha512Schedule (beWords64 block)
  let (a, b, c, d, e, f, g, h) := (K512.zip ws).foldl sha512Round st
  let (h0, h1, h2, h3, h4, h5, h6, h7) := st
  (w64 (h0 + a), w64 (h1 + b), w64 (h2 + c), w64 (h3 + d),
   w64 (h4 + e), w64 (h5 + f), w64 (h6 + g), w64 (h7 + h))

/-- SHA-512 digest of a byte list, as an uppercase hexadecimal string. -/
def sha512Hex (msg : List Nat) : String :=
  let padded := padMessage 128 16 msg
  let (h0, h1, h2, h3, h4, h5, h6, h7) :=
    (chunksOf 128 padded.length padded).foldl sha512Compress
      (7640891576956012808, 13503953896175478587, 4354685564936845355, 11912009170470909681,
       5840696475078001361, 11170449401992604703, 2270897969802886507, 6620516959819538809)
  String.mk (hexU 16 h0 ++ hexU 16 h1 ++ hexU 16 h2 ++ hexU 16 h3 ++
             hexU 16 h4 ++ hexU 16 h5 ++ hexU 16 h6 ++ hexU 16 h7)

/-! ## Text helpers: UTF-8 encoding -/

/-- UTF-8 encoding of a single Unicode code point. -/
def utf8Bytes (n : Nat) : List Nat :=
  if n < 128 then [n]
  else if n < 2048 then [192 + n / 64, 128 + n % 64]
  else if n < 65536 then [224 + n / 4096, 128 + (n / 64) % 64, 128 + n % 64]
  else [240 + n / 262144, 128 + (n / 4096) % 64, 128 + (n / 64) % 64, 128 + n % 64]

/-- UTF-8 encoding of a string, as a byte list: the model of
encoding with the default utf8 codec. -/
def encodeUtf8 (s : String) : List Nat := (s.data.map (fun c => utf8Bytes c.toNat)).flatten

/-! ## Python value model -/

/-- The Python scalars that occur as parameter-dict values: strings,
integers, and None. -/
inductive PyVal where
  | str (s : String)
  | int (n : Int)
  | none
deriving DecidableEq, Repr

/-- Python string conversion (str and percent-s formatting) of such a
scalar. -/
def pyStr : PyVal → String
  | .str s => s
  | .int n => toString n
  | .none => "None"

/-- Python `str.upper()` on the ASCII strings used here; core
`Char.toUpper` is exactly the ASCII case map. -/
def pyUpper (s : String) : String := String.mk (s.data.map Char.toUpper)

/-- Comparison of characters by code point, as Python compares string
characters. -/
def charCmp (a b : Char) : Ordering :=
  if a = b then .eq else if a.toNat < b.toNat then .lt else .gt

/-- Lexicographic comparison of character lists. -/
def strCmpL : List Char → List Char → Ordering
  | [], [] => .eq
  | [], _ :: _ => .lt
  | _ :: _, [] => .gt
  | a :: as, b :: bs =>
      match charCmp a b with
      | .eq => strCmpL as bs
      | o => o

/-- Python string comparison. -/
def strCmp (a b : String) : Ordering := strCmpL a.data b.data

/-- Python 2 comparison of the scalar values occurring in Ogone
parameter dicts: None sorts below numbers and numbers below strings
(mixed types compare by type name), like-typed values compare
naturally. -/
def pyValCmp : PyVal → PyVal → Ordering
  | .none, .none => .eq
  | .none, _ => .lt
  | _, .none => .gt
  | .int a, .int b => if a = b then .eq else if a < b then .lt else .gt
  | .int _, .str _ => .lt
  | .str _, .int _ => .gt
  | .str a, .str b => strCmp a b

/-- Python tuple comparison of (key, value) pairs: keys first, values
break ties. -/
def pairCmp (x y : String × PyVal) : Ordering :=
  match strCmp x.1 y.1 with
  | .eq => pyValCmp x.2 y.2
  | o => o

/-- The non-strict order that `sorted_data.sort(key=lambda x: x)` sorts
by. -/
def pairLe (x y : String × PyVal) : Prop := pairCmp x y ≠ .gt

instance : DecidableRel pairLe := fun x y => by unfold pairLe; infer_instance

/-! ## The canonicalizer (`django_ogone.security.OgoneSignature`) -/

def SHA_IN_FILTER_WORDS : List String := [
  "ACCEPTANCE", "ACCEPTURL", "ADDMATCH", "ADDRMATCH", "AIAGIATA", "AIAIRNAME", "AIAIRTAX",
  "AIBOOKIND*XX*", "AICARRIER*XX*", "AICHDET", "AICLASS*XX*", "AICONJTI", "AIDEPTCODE",
  "AIDESTCITY*XX*", "AIDESTCITYL*XX*", "AIEXTRAPASNAME*XX*", "AIEYCD", "AIFLDATE*XX*",
  "AIFLNUM*XX*", "AIGLNUM", "AIINVOICE", "AIIRST", "AIORCITY*XX*", "AIORCITYL*XX*", "AIPASNAME",
  "AIPROJNUM", "AISTOPOV*XX*", "AITIDATE", "AITINUM", "AITINUML*XX*", "AITYPCH", "AIVATAMNT",
  "AIVATAPPL", "ALIAS", "ALIASOPERATION", "ALIASUSAGE", "ALLOWCORRECTION", "AMOUNT", "AMOUNT*XX*",
  "AMOUNTHTVA", "AMOUNTTVA", "BACKURL", "BATCHID", "BGCOLOR", "BLVERNUM", "BRAND", "BRANDVISUAL",
  "BUTTONBGCOLOR", "BUTTONTXTCOLOR", "CANCELURL", "CARDNO", "CATALOGURL", "CAVV_3D",
  "CAVVALGORITHM_3D", "CERTID", "CHECK_AAV", "CIVILITY", "CN", "COM", "COMPLUS", "COSTCENTER",
  "COSTCODE", "CREDITCODE", "CUID", "CURRENCY", "CVC", "CVCFLAG", "DATA", "DATATYPE", "DATEIN",
  "DATEOUT", "DECLINEURL", "DEVICE", "DISCOUNTRATE", "DISPLAYMODE", "ECI", "ECI_3D",
  "ECOM_BILLTO_POSTAL_CITY", "ECOM_BILLTO_POSTAL_COUNTRYCODE", "ECOM_BILLTO_POSTAL_NAME_FIRST",
  "ECOM_BILLTO_POSTAL_NAME_LAST", "ECOM_BILLTO_POSTAL_POSTALCODE",
  "ECOM_BILLTO_POSTAL_STREET_LINE1", "ECOM_BILLTO_POSTAL_STREET_LINE2",
  "ECOM_BILLTO_POSTAL_STREET_NUMBER", "ECOM_CONSUMERID", "ECOM_CONSUMER_GENDER",
  "ECOM_CONSUMEROGID", "ECOM_CONSUMERORDERID", "ECOM_CONSUMERUSERALIAS", "ECOM_CONSUMERUSERPWD",
  "ECOM_CONSUMERUSERID", "ECOM_PAYMENT_CARD_EXPDATE_MONTH", "ECOM_PAYMENT_CARD_EXPDATE_YEAR",
  "ECOM_PAYMENT_CARD_NAME", "ECOM_PAYMENT_CARD_VERIFICATION", "ECOM_SHIPTO_COMPANY",
  "ECOM_SHIPTO_DOB", "ECOM_SHIPTO_ONLINE_EMAIL", "ECOM_SHIPTO_POSTAL_CITY",
  "ECOM_SHIPTO_POSTAL_COUNTRYCODE", "ECOM_SHIPTO_POSTAL_NAME_FIRST",
  "ECOM_SHIPTO_POSTAL_NAME_LAST", "ECOM_SHIPTO_POSTAL_NAME_PREFIX",
  "ECOM_SHIPTO_POSTAL_POSTALCODE", "ECOM_SHIPTO_POSTAL_STREET_LINE1",
  "ECOM_SHIPTO_POSTAL_STREET_LINE2", "ECOM_SHIPTO_POSTAL_STREET_NUMBER",
  "ECOM_SHIPTO_TELECOM_FAX_NUMBER", "ECOM_SHIPTO_TELECOM_PHONE_NUMBER", "ECOM_SHIPTO_TVA", "ED",
  "EMAIL", "EXCEPTIONURL", "EXCLPMLIST", "EXECUTIONDATE*XX*", "FACEXCL*XX*", "FACTOTAL*XX*",
  "FIRSTCALL", "FLAG3D", "FONTTYPE", "FORCECODE1", "FORCECODE2", "FORCECODEHASH", "FORCEPROCESS",
  "FORCETP", "GENERIC_BL", "GIROPAY_ACCOUNT_NUMBER", "GIROPAY_BLZ", "GIROPAY_OWNER_NAME",
  "GLOBORDERID", "GUID", "HDFONTTYPE", "HDTBLBGCOLOR", "HDTBLTXTCOLOR", "HEIGHTFRAME", "HOMEURL",
  "HTTP_ACCEPT", "HTTP_USER_AGENT", "INCLUDE_BIN", "INCLUDE_COUNTRIES", "INVDATE", "INVDISCOUNT",
  "INVLEVEL", "INVORDERID", "ISSUERID", "IST_MOBILE", "ITEM_COUNT", "ITEMATTRIBUTES*XX*",
  "ITEMCATEGORY*XX*", "ITEMCOMMENTS*XX*", "ITEMDESC*XX*", "ITEMDISCOUNT*XX*", "ITEMID*XX*",
  "ITEMNAME*XX*", "ITEMPRICE*XX*", "ITEMQUANT*XX*", "ITEMQUANTORIG*XX*", "ITEMUNITOFMEASURE*XX*",
  "ITEMVAT*XX*", "ITEMVATCODE*XX*", "ITEMWEIGHT*XX*", "LANGUAGE", "LEVEL1AUTHCPC", "LIDEXCL*XX*",
  "LIMITCLIENTSCRIPTUSAGE", "LINE_REF", "LINE_REF1", "LINE_REF2", "LINE_REF3", "LINE_REF4",
  "LINE_REF5", "LINE_REF6", "LIST_BIN", "LIST_COUNTRIES", "LOGO", "MAXITEMQUANT*XX*",
  "MERCHANTID", "MODE", "MTIME", "MVER", "NETAMOUNT", "OPERATION", "ORDERID", "ORDERSHIPCOST",
  "ORDERSHIPTAX", "ORDERSHIPTAXCODE", "ORIG", "OR_INVORDERID", "OR_ORDERID", "OWNERADDRESS",
  "OWNERADDRESS2", "OWNERCTY", "OWNERTELNO", "OWNERTOWN", "OWNERZIP", "PAIDAMOUNT", "PARAMPLUS",
  "PARAMVAR", "PAYID", "PAYMETHOD", "PM", "PMLIST", "PMLISTPMLISTTYPE", "PMLISTTYPE",
  "PMLISTTYPEPMLIST", "PMTYPE", "POPUP", "POST", "PSPID", "PSWD", "REF", "REFER", "REFID",
  "REFKIND", "REF_CUSTOMERID", "REF_CUSTOMERREF", "REGISTRED", "REMOTE_ADDR", "REQGENFIELDS",
  "RTIMEOUT", "RTIMEOUTREQUESTEDTIMEOUT", "SCORINGCLIENT", "SETT_BATCH", "SID", "STATUS_3D",
  "SUBSCRIPTION_ID", "SUB_AM", "SUB_AMOUNT", "SUB_COM", "SUB_COMMENT", "SUB_CUR", "SUB_ENDDATE",
  "SUB_ORDERID", "SUB_PERIOD_MOMENT", "SUB_PERIOD_MOMENT_M", "SUB_PERIOD_MOMENT_WW",
  "SUB_PERIOD_NUMBER", "SUB_PERIOD_NUMBER_D", "SUB_PERIOD_NUMBER_M", "SUB_PERIOD_NUMBER_WW",
  "SUB_PERIOD_UNIT", "SUB_STARTDATE", "SUB_STATUS", "TAAL", "TAXINCLUDED*XX*", "TBLBGCOLOR",
  "TBLTXTCOLOR", "TID", "TITLE", "TOTALAMOUNT", "TP", "TRACK2", "TXTBADDR2", "TXTCOLOR",
  "TXTOKEN", "TXTOKENTXTOKENPAYPAL", "TYPE_COUNTRY", "UCAF_AUTHENTICATION_DATA",
  "UCAF_PAYMENT_CARD_CVC2", "UCAF_PAYMENT_CARD_EXPDATE_MONTH", "UCAF_PAYMENT_CARD_EXPDATE_YEAR",
  "UCAF_PAYMENT_CARD_NUMBER", "USERID", "USERTYPE", "VERSION", "WBTU_MSISDN", "WBTU_ORDERID",
  "WEIGHTUNIT", "WIN3DS", "WITHROOT"]

def SHA_OUT_FILTER_WORDS : List String := [
  "AAVADDRESS", "AAVCHECK", "AAVZIP", "ACCEPTANCE", "ALIAS", "AMOUNT", "BIN", "BRAND", "CARDNO",
  "CCCTY", "CN", "COMPLUS", "CREATION_STATUS", "CURRENCY", "CVCCHECK", "DCC_COMMPERCENTAGE",
  "DCC_CONVAMOUNT", "DCC_CONVCCY", "DCC_EXCHRATE", "DCC_EXCHRATESOURCE", "DCC_EXCHRATETS",
  "DCC_INDICATOR", "DCC_MARGINPERCENTAGE", "DCC_VALIDHOURS", "DIGESTCARDNO", "ECI", "ED",
  "ENCCARDNO", "IP", "IPCTY", "NBREMAILUSAGE", "NBRIPUSAGE", "NBRIPUSAGE_ALLTX", "NBRUSAGE",
  "NCERROR", "ORDERID", "PAYID", "PM", "SCO_CATEGORY", "SCORING", "STATUS", "SUBBRAND",
  "SUBSCRIPTION_ID", "TRXDATE", "VC"]

/-- The canonicalizer object: the constructor stores a copy of the
mapping (modelled as the list of dict items in iteration order)
together with the hash method, the secret and the direction flag.  The
`encoding` argument is fixed at its default, utf8. -/
structure OgoneSignature where
  data : List (String × PyVal)
  hash_method : String
  secret : String
  out : Bool

/-- The assertions of the constructor: `hash_method` must be one of the
three supported names, and `str(secret)` must be truthy, i.e. must not
stringify to the empty string. -/
def OgoneSignature.init_checks (hash_method : String) (secret : PyVal) : Bool :=
  (["sha1", "sha256", "sha512"].contains hash_method) && !(pyStr secret == "")

/-- Model of `OgoneSignature._filter_data` (the uppercased key is what
`_sort_data` passes in as `k`). -/
def OgoneSignature.filter_data (self : OgoneSignature) (k : String) (v : PyVal) : Bool :=
  let valid := true
  let valid := if v = .str "" ∨ v = .none then false else valid
  let valid := if self.out = false ∧ pyUpper k ∉ SHA_IN_FILTER_WORDS then false else valid
  let valid := if self.out = true ∧ pyUpper k ∉ SHA_OUT_FILTER_WORDS then false else valid
  if k = "SHASIGN" then false else valid

/-- Model of `OgoneSignature._sort_data`: uppercase the keys, filter (the filter
already sees the uppercased key), and sort by the whole pair. -/
def OgoneSignature.sort_data (self : OgoneSignature) (data : List (String × PyVal)) :
    List (String × PyVal) :=
  List.insertionSort pairLe
    ((data.filter (fun kv => self.filter_data (pyUpper kv.1) kv.2)).map
      (fun kv => (pyUpper kv.1, kv.2)))

/-- Python `sep.join(strings)`. -/
def pyJoin (sep : String) : List String → String
  | [] => ""
  | [x] => x
  | x :: y :: xs => x ++ sep ++ pyJoin sep (y :: xs)

/-- Model of `OgoneSignature._merge_data`: format each pair as `KEY=value`, join
with the secret as separator, append the secret once more, and encode. -/
def OgoneSignature.merge_data (self : OgoneSignature) (data : List (String × PyVal)) :
    List Nat :=
  let pairs := data.map (fun kv => kv.1 ++ "=" ++ pyStr kv.2)
  encodeUtf8 (pyJoin self.secret pairs ++ self.secret)

/-- Model of `OgoneSignature._sign_string`: `getattr(hashlib, self.hash_method)`
for the three supported methods (the assertion in the constructor restricts
`hash_method` to exactly these). -/
def OgoneSignature.sign_string (self : OgoneSignature) (pre_sign_string : List Nat) : String :=
  if self.hash_method = "sha1" then sha1Hex pre_sign_string
  else if self.hash_method = "sha256" then sha256Hex pre_sign_string
  else if self.hash_method = "sha512" then sha512Hex pre_sign_string
  else ""

/-- Model of `OgoneSignature.signature`: sort, merge, sign. -/
def OgoneSignature.signature (self : OgoneSignature) : String :=
  self.sign_string (self.merge_data (self.sort_data self.data))

/-! ## Concrete scenario data -/

/-- Scenario 1 of the docstring: the mapping sending d to a and a to b. -/
def scenario1 : OgoneSignature :=
  ⟨[("d", .str "a"), ("a", .str "b")], "sha512", "c", false⟩

/-- Scenario 2 of the docstring (the ECOM shaOUT example), with the
inbound direction (`out=True`), whose allow-list is
`SHA_OUT_FILTER_WORDS`. -/
def scenario2 : OgoneSignature :=
  ⟨[("acceptance", .int 1234), ("amount", .int 15), ("brand", .str "VISA"),
    ("cardno", .str "xxxxxxxxxxxx1111"), ("currency", .str "EUR"), ("NCERROR", .int 0),
    ("orderId", .int 12), ("payid", .int 32100123), ("pm", .str "CreditCard"),
    ("status", .int 9)], "sha1", "Mysecretsig1875!?", true⟩

/-- Scenario 3 of the docstring (the ECOM shaIn example), with the
outbound direction (the default `out=False`), whose allow-list is
`SHA_IN_FILTER_WORDS`. -/
def scenario3 : OgoneSignature :=
  ⟨[("amount", .int 1500), ("currency", .str "EUR"), ("operation", .str "RES"),
    ("orderID", .int 1234), ("PSPID", .str "MyPSPID")], "sha1", "Mysecretsig1875!?", false⟩

-- additional concrete inputs used by counterexamples and witnesses

/-- A mapping with two keys that differ only in letter case. -/
def caseCollide : OgoneSignature :=
  ⟨[("amount", .str "x"), ("AMOUNT", .str "y")], "sha1", "sec", false⟩

/-- A two-entry mapping and its reversal, used to witness order
independence. -/
def permA : List (String × PyVal) := [("currency", .str "EUR"), ("amount", .int 1)]

def permB : List (String × PyVal) := [("amount", .int 1), ("currency", .str "EUR")]

/-! ## The sort order is total, transitive and antisymmetric -/

/-- A comparison function that decides equality, is antisymmetric under
swapping its arguments, and has a transitive strict part. -/
def CmpLawful {α : Type} (f : α → α → Ordering) : Prop :=
  (∀ a b, f a b = .eq ↔ a = b) ∧
  (∀ a b, f b a = (f a b).swap) ∧
  (∀ a b c, f a b = .lt → f b c = .lt → f a c = .lt)

theorem char_toNat_inj {a b : Char} (h : a.toNat = b.toNat) : a = b := by
  rw [← Char.ofNat_toNat a, h, Char.ofNat_toNat]

theorem charCmp_eq_iff (a b : Char) : charCmp a b = .eq ↔ a = b := by
  unfold charCmp
  by_cases h : a = b
  · simp [h]
  · have hn : a.toNat ≠ b.toNat := fun he => h (char_toNat_inj he)
    by_cases hlt : a.toNat < b.toNat <;> simp [h, hlt]

theorem charCmp_lt_iff (a b : Char) : charCmp a b = .lt ↔ a.toNat < b.toNat := by
  unfold charCmp
  by_cases h : a = b
  · subst h
    simp
  · have hn : a.toNat ≠ b.toNat := fun he => h (char_toNat_inj he)
    by_cases hlt : a.toNat < b.toNat <;> simp [h, hlt]

theorem charCmp_gt_iff (a b : Char) : charCmp a b = .gt ↔ b.toNat < a.toNat := by
  unfold charCmp
  by_cases h : a = b
  · subst h
    simp
  · have hn : a.toNat ≠ b.toNat := fun he => h (char_toNat_inj he)
    by_cases hlt : a.toNat < b.toNat <;> simp [h, hlt] <;> omega

theorem charCmp_lawful : CmpLawful charCmp := by
  refine ⟨charCmp_eq_iff, ?_, ?_⟩
  · intro a b
    rcases Nat.lt_trichotomy a.toNat b.toNat with h | h | h
    · rw [(charCmp_lt_iff a b).mpr h]
      exact (charCmp_gt_iff b a).mpr h
    · have he : a = b := char_toNat_inj h
      subst he
      rw [(charCmp_eq_iff a a).mpr rfl]
      rfl
    · rw [(charCmp_gt_iff a b).mpr h]
      exact (charCmp_lt_iff b a).mpr h
  · intro a b c h1 h2
    exact (charCmp_lt_iff a c).mpr
      (Nat.lt_trans ((charCmp_lt_iff a b).mp h1) ((charCmp_lt_iff b c).mp h2))

theorem strCmpL_cons (a b : Char) (as bs : List Char) :
    strCmpL (a :: as) (b :: bs) =
      match charCmp a b with
      | .eq => strCmpL as bs
      | o => o := rfl

theorem string_data_inj {a b : String} (h : a.data = b.data) : a = b := by
  cases a
  cases b
  simp only at h
  rw [h]

theorem strCmpL_eq_iff : ∀ l1 l2 : List Char, strCmpL l1 l2 = .eq ↔ l1 = l2
  | [], [] => by simp [strCmpL]
  | [], _ :: _ => by simp [strCmpL]
  | _ :: _, [] => by simp [strCmpL]
  | a :: as, b :: bs => by
    cases h : charCmp a b with
    | eq =>
      have hab : a = b := (charCmp_eq_iff a b).mp h
      subst hab
      simp only [strCmpL_cons, h]
      rw [strCmpL_eq_iff as bs]
      simp
    | lt =>
      simp only [strCmpL_cons, h]
      constructor
      · intro hf
        exact nomatch hf
      · intro hf
        injection hf with h1 h2
        rw [(charCmp_eq_iff a b).mpr h1] at h
        exact nomatch h
    | gt =>
      simp only [strCmpL_cons, h]
      constructor
      · intro hf
        exact nomatch hf
      · intro hf
        injection hf with h1 h2
        rw [(charCmp_eq_iff a b).mpr h1] at h
        exact nomatch h

theorem strCmpL_swap : ∀ l1 l2 : List Char, strCmpL l2 l1 = (strCmpL l1 l2).swap
  | [], [] => by simp [strCmpL, Ordering.swap]
  | [], _ :: _ => by simp [strCmpL, Ordering.swap]
  | _ :: _, [] => by simp [strCmpL, Ordering.swap]
  | a :: as, b :: bs => by
    have hsw : charCmp b a = (charCmp a b).swap := charCmp_lawful.2.1 a b
    cases h : charCmp a b with
    | eq =>
      rw [h] at hsw
      simp only [strCmpL_cons, h, hsw, Ordering.swap]
      exact strCmpL_swap as bs
    | lt =>
      rw [h] at hsw
      simp only [strCmpL_cons, h, hsw, Ordering.swap]
    | gt =>
      rw [h] at hsw
      simp only [strCmpL_cons, h, hsw, Ordering.swap]

theorem strCmpL_lt_trans :
    ∀ l1 l2 l3 : List Char,
      strCmpL l1 l2 = .lt → strCmpL l2 l3 = .lt → strCmpL l1 l3 = .lt
  | l1, [], l3, h1, _ => by cases l1 <;> simp [strCmpL] at h1
  | l1, _ :: _, [], _, h2 => by simp [strCmpL] at h2
  | [], b :: bs, c :: cs, _, _ => by simp [strCmpL]
  | a :: as, b :: bs, c :: cs, h1, h2 => by
    rw [strCmpL_cons] at h1 h2 ⊢
    cases hab : charCmp a b with
    | gt => rw [hab] at h1; exact nomatch h1
    | eq =>
      rw [hab] at h1
      have hab' : a = b := (charCmp_eq_iff a b).mp hab
      subst hab'
      cases hbc : charCmp a c with
      | lt => rfl
      | gt => rw [hbc] at h2; exact nomatch h2
      | eq =>
        rw [hbc] at h2
        simp only []
        exact strCmpL_lt_trans as bs cs h1 h2
    | lt =>
      cases hbc : charCmp b c with
      | gt => rw [hbc] at h2; exact nomatch h2
      | eq =>
        have hbc' : b = c := (charCmp_eq_iff b c).mp hbc
        subst hbc'
        rw [hab]
      | lt =>
        rw [charCmp_lawful.2.2 a b c hab hbc]

/-- Lexicographic comparison of character lists is lawful. -/
theorem strCmpL_lawful : CmpLawful strCmpL :=
  ⟨strCmpL_eq_iff, fun a b => strCmpL_swap a b, strCmpL_lt_trans⟩

theorem strCmp_eq_iff (a b : String) : strCmp a b = .eq ↔ a = b := by
  unfold strCmp
  rw [strCmpL_eq_iff]
  constructor
  · intro h
    exact string_data_inj h
  · intro h
    rw [h]

theorem strCmp_lawful : CmpLawful strCmp := by
  refine ⟨strCmp_eq_iff, ?_, ?_⟩
  · intro a b
    exact strCmpL_swap a.data b.data
  · intro a b c h1 h2
    exact strCmpL_lt_trans a.data b.data c.data h1 h2

theorem pyValCmp_eq_iff (a b : PyVal) : pyValCmp a b = .eq ↔ a = b := by
  cases a <;> cases b <;> simp [pyValCmp]
  case str.str s t => exact strCmp_eq_iff s t

theorem pyValCmp_swap (a b : PyVal) : pyValCmp b a = (pyValCmp a b).swap := by
  cases a <;> cases b <;> simp [pyValCmp] <;> try rfl
  case str.str s t =>
    rw [strCmp_lawful.2.1 s t]
  case int.int m n =>
    rcases Int.lt_trichotomy m n with h | h | h
    · simp [show ¬ n = m by omega, show ¬ n < m by omega, show ¬ m = n by omega, h,
        Ordering.swap]
    · subst h
      simp [Ordering.swap]
    · simp [show ¬ n = m by omega, show ¬ m = n by omega, show ¬ m < n by omega, h,
        Ordering.swap]

theorem pyValCmp_lt_trans (a b c : PyVal) :
    pyValCmp a b = .lt → pyValCmp b c = .lt → pyValCmp a c = .lt := by
  cases a <;> cases b <;> cases c <;> intro h1 h2 <;> simp [pyValCmp] at h1 h2 ⊢
  case str.str.str r s t => exact strCmp_lawful.2.2 r s t h1 h2
  case int.int.int l m n => omega

theorem pyValCmp_lawful : CmpLawful pyValCmp :=
  ⟨pyValCmp_eq_iff, pyValCmp_swap, pyValCmp_lt_trans⟩

theorem pairCmp_lawful : CmpLawful pairCmp := by
  refine ⟨?_, ?_, ?_⟩
  · intro x y
    unfold pairCmp
    cases h : strCmp x.1 y.1 with
    | eq =>
      have h1 : x.1 = y.1 := (strCmp_eq_iff x.1 y.1).mp h
      rw [show (pyValCmp x.2 y.2 = .eq ↔ x.2 = y.2) from pyValCmp_eq_iff x.2 y.2]
      constructor
      · intro h2
        exact Prod.ext h1 h2
      · intro h2
        rw [h2]
    | lt =>
      constructor
      · intro hf
        exact nomatch hf
      · intro hf
        rw [hf] at h
        rw [(strCmp_eq_iff y.1 y.1).mpr rfl] at h
        exact nomatch h
    | gt =>
      constructor
      · intro hf
        exact nomatch hf
      · intro hf
        rw [hf] at h
        rw [(strCmp_eq_iff y.1 y.1).mpr rfl] at h
        exact nomatch h
  · intro x y
    unfold pairCmp
    rw [strCmp_lawful.2.1 x.1 y.1]
    cases h : strCmp x.1 y.1 with
    | eq => exact pyValCmp_swap x.2 y.2
    | lt => rfl
    | gt => rfl
  · intro x y z h1 h2
    unfold pairCmp at *
    cases hxy : strCmp x.1 y.1 with
    | gt => rw [hxy] at h1; exact nomatch h1
    | eq =>
      rw [hxy] at h1
      have he : x.1 = y.1 := (strCmp_eq_iff x.1 y.1).mp hxy
      cases hyz : strCmp y.1 z.1 with
      | gt => rw [hyz] at h2; exact nomatch h2
      | eq =>
        rw [hyz] at h2
        rw [he, hyz]
        exact pyValCmp_lt_trans x.2 y.2 z.2 h1 h2
      | lt =>
        rw [he, hyz]
    | lt =>
      cases hyz : strCmp y.1 z.1 with
      | gt => rw [hyz] at h2; exact nomatch h2
      | eq =>
        have he : y.1 = z.1 := (strCmp_eq_iff y.1 z.1).mp hyz
        rw [← he, hxy]
      | lt =>
        rw [strCmp_lawful.2.2 x.1 y.1 z.1 hxy hyz]

theorem cmpLe_total {α : Type} {f : α → α → Ordering} (hf : CmpLawful f) (a b : α) :
    f a b ≠ .gt ∨ f b a ≠ .gt := by
  cases h : f a b with
  | lt => exact Or.inl (by simp [h])
  | eq => exact Or.inl (by simp [h])
  | gt =>
    have : f b a = .lt := by rw [hf.2.1 a b, h]; rfl
    exact Or.inr (by simp [this])

theorem cmpLe_trans {α : Type} {f : α → α → Ordering} (hf : CmpLawful f) {a b c : α}
    (h1 : f a b ≠ .gt) (h2 : f b c ≠ .gt) : f a c ≠ .gt := by
  cases hab : f a b with
  | gt => exact absurd hab h1
  | eq =>
    have : a = b := (hf.1 a b).mp hab
    subst this
    exact h2
  | lt =>
    cases hbc : f b c with
    | gt => exact absurd hbc h2
    | eq =>
      have : b = c := (hf.1 b c).mp hbc
      subst this
      simp [hab]
    | lt =>
      simp [hf.2.2 a b c hab hbc]

theorem cmpLe_antisymm {α : Type} {f : α → α → Ordering} (hf : CmpLawful f) {a b : α}
    (h1 : f a b ≠ .gt) (h2 : f b a ≠ .gt) : a = b := by
  cases hab : f a b with
  | eq => exact (hf.1 a b).mp hab
  | gt => exact absurd hab h1
  | lt =>
    have : f b a = .gt := by rw [hf.2.1 a b, hab]; rfl
    exact absurd this h2

instance : IsTotal (String × PyVal) pairLe :=
  ⟨fun a b => cmpLe_total pairCmp_lawful a b⟩

instance : IsTrans (String × PyVal) pairLe :=
  ⟨fun _ _ _ h1 h2 => cmpLe_trans pairCmp_lawful h1 h2⟩

instance : IsAntisymm (String × PyVal) pairLe :=
  ⟨fun _ _ h1 h2 => cmpLe_antisymm pairCmp_lawful h1 h2⟩

/-- Two lists that are permutations of each other have the same
insertion sort under the pair order (sorted permutations are unique
because the order is antisymmetric). -/
theorem insertionSort_congr_perm {l1 l2 : List (String × PyVal)} (h : l1.Perm l2) :
    List.insertionSort pairLe l1 = List.insertionSort pairLe l2 :=
  List.eq_of_perm_of_sorted
    ((List.perm_insertionSort pairLe l1).trans (h.trans (List.perm_insertionSort pairLe l2).symm))
    (List.sorted_insertionSort pairLe l1) (List.sorted_insertionSort pairLe l2)

/-! ## Uppercasing is idempotent -/

theorem char_toNat_ofNat {n : Nat} (h : n < 55296) : (Char.ofNat n).toNat = n := by
  have hv : n.isValidChar := Or.inl h
  rw [Char.ofNat, dif_pos hv]
  rfl

theorem toUpper_idem (c : Char) : c.toUpper.toUpper = c.toUpper := by
  unfold Char.toUpper
  by_cases h : c.toNat ≥ 97 ∧ c.toNat ≤ 122
  · rw [if_pos h]
    have hv : (Char.ofNat (c.toNat - 32)).toNat = c.toNat - 32 := char_toNat_ofNat (by omega)
    rw [if_neg]
    rw [hv]
    omega
  · rw [if_neg h, if_neg h]

theorem pyUpper_idem (s : String) : pyUpper (pyUpper s) = pyUpper s := by
  show String.mk ((s.data.map Char.toUpper).map Char.toUpper) = String.mk (s.data.map Char.toUpper)
  rw [List.map_map]
  exact congrArg String.mk (List.map_congr_left (fun c _ => toUpper_idem c))

/-! ## What passes the filter -/

theorem filter_data_eq_true (self : OgoneSignature) (k : String) (v : PyVal) :
    self.filter_data k v = true ↔
      (¬ (v = .str "" ∨ v = .none)) ∧
      (self.out = false → pyUpper k ∈ SHA_IN_FILTER_WORDS) ∧
      (self.out = true → pyUpper k ∈ SHA_OUT_FILTER_WORDS) ∧
      k ≠ "SHASIGN" := by
  unfold OgoneSignature.filter_data
  by_cases h1 : v = .str "" ∨ v = .none <;>
    by_cases h2 : self.out = false ∧ pyUpper k ∉ SHA_IN_FILTER_WORDS <;>
      by_cases h3 : self.out = true ∧ pyUpper k ∉ SHA_OUT_FILTER_WORDS <;>
        by_cases h4 : k = "SHASIGN" <;>
          simp [h1, h2, h3, h4] <;> tauto

/-- Every element of the canonical sequence is the uppercased image of
a mapping entry that passed the filter. -/
theorem mem_sort_data {self : OgoneSignature} {data : List (String × PyVal)}
    {p : String × PyVal} (hp : p ∈ self.sort_data data) :
    ∃ kv, kv ∈ data ∧ p = (pyUpper kv.1, kv.2) ∧
      self.filter_data (pyUpper kv.1) kv.2 = true := by
  unfold OgoneSignature.sort_data at hp
  rw [List.mem_insertionSort] at hp
  rcases List.mem_map.mp hp with ⟨kv, hkv, hmap⟩
  rcases List.mem_filter.mp hkv with ⟨hmem, hfil⟩
  exact ⟨kv, hmem, hmap.symm, hfil⟩

/-- No element of the canonical sequence carries the key SHASIGN
(`_filter_data` tests the key it is handed, which is the uppercased
one). -/
theorem sort_data_key_ne_shasign {self : OgoneSignature} {data : List (String × PyVal)}
    {p : String × PyVal} (hp : p ∈ self.sort_data data) : p.1 ≠ "SHASIGN" := by
  rcases mem_sort_data hp with ⟨kv, _, heq, hfil⟩
  rcases (filter_data_eq_true self (pyUpper kv.1) kv.2).mp hfil with ⟨_, _, _, hks⟩
  rw [heq]
  exact hks

/-! ## Claims -/

/-- C1: for the ECOM shaOUT mapping (acceptance 1234, amount 15, brand
VISA, cardno xxxxxxxxxxxx1111, currency EUR, NCERROR 0, orderId 12,
payid 32100123, pm CreditCard, status 9), secret "Mysecretsig1875!?",
sha1, and the inbound direction (out = true, allow-list
SHA_OUT_FILTER_WORDS), `signature()` returns exactly
B209960D5703DD1047F95A0F97655FFE5AC8BD52. -/
theorem scenario2_inbound_signature :
    scenario2.signature = "B209960D5703DD1047F95A0F97655FFE5AC8BD52" := by rfl

/-- C2: for the ECOM shaIn mapping (amount 1500, currency EUR,
operation RES, orderID 1234, PSPID MyPSPID), secret
"Mysecretsig1875!?", sha1, and the outbound direction (the default
out = false, allow-list SHA_IN_FILTER_WORDS), `signature()` returns
exactly EB52902BCC4B50DC1250E5A7C1068ECF97751256. -/
theorem scenario3_outbound_signature :
    scenario3.signature = "EB52902BCC4B50DC1250E5A7C1068ECF97751256" := by rfl

/-- C3: what the code actually does on the docstring scenario
(d to a, a to b), secret "c", sha512, outbound.  The keys A and D
are not in SHA_IN_FILTER_WORDS, so the filter empties the mapping, the
preimage is the bare secret "c", and `signature()` returns
sha512("c") — not the documented digest B49953…, which is the sha512 of
the documented preimage "A=bcD=ac" (third and fourth conjuncts: the
docstring values are exactly what the unfiltered canonicalization
would produce). -/
theorem scenario1_code_behaviour :
    scenario1.sort_data scenario1.data = [] ∧
    scenario1.signature = "ACC28DB2BEB7B42BAA1CB0243D401CCB4E3FCE44D7B02879A52799AADFF541522D8822598B2FA664F9D5156C00C924805D75C3868BD56C2ACB81D37E98E35ADC" ∧
    scenario1.merge_data [("A", .str "b"), ("D", .str "a")] = encodeUtf8 "A=bcD=ac" ∧
    sha512Hex (encodeUtf8 "A=bcD=ac") = "B499539D7E0B2B1FB5CCFE9FFDDBAD1EDF345757C094443ED795662F879FB250EEEB22CBB2D2F3C129E2CAE735044CDB7B08397502204B0683EA370F6D76FB6A" :=
  ⟨rfl, rfl, rfl, rfl⟩

/-- C4 counterexample: on the mapping with the two case-colliding keys
"amount" and "AMOUNT" the canonical sequence contains two pairs with
the same uppercased key — nothing is collapsed. -/
theorem sort_data_duplicate_upper_keys :
    ¬ ((caseCollide.sort_data caseCollide.data).Pairwise (fun p q => p.1 ≠ q.1)) := by
  intro h
  have : caseCollide.sort_data caseCollide.data =
      [("AMOUNT", .str "x"), ("AMOUNT", .str "y")] := by rfl
  rw [this] at h
  rcases List.pairwise_cons.mp h with ⟨h1, _⟩
  exact h1 ("AMOUNT", .str "y") (by simp) rfl

/-- C4 (amended): case-normalization does not collapse entries.
Every entry that passes the filter contributes its own pair: the
canonical sequence is a permutation of the filtered, uppercased entry
list (so two keys differing only in case yield two pairs). -/
theorem sort_data_no_collapse (self : OgoneSignature) (data : List (String × PyVal)) :
    (self.sort_data data).Perm
      ((data.filter (fun kv => self.filter_data (pyUpper kv.1) kv.2)).map
        (fun kv => (pyUpper kv.1, kv.2))) :=
  List.perm_insertionSort pairLe _

/-- C5: the digest is invariant under permuting the iteration order of
the input mapping, for any direction, hash method and secret. -/
theorem signature_perm_invariant (out : Bool) (hm secret : String)
    (l1 l2 : List (String × PyVal)) (h : l1.Perm l2) :
    (OgoneSignature.mk l1 hm secret out).signature =
      (OgoneSignature.mk l2 hm secret out).signature := by
  have hs : (OgoneSignature.mk l1 hm secret out).sort_data l1 =
      (OgoneSignature.mk l2 hm secret out).sort_data l2 := by
    unfold OgoneSignature.sort_data
    exact insertionSort_congr_perm
      ((h.filter (fun kv =>
        (OgoneSignature.mk l1 hm secret out).filter_data (pyUpper kv.1) kv.2)).map
        (fun kv => (pyUpper kv.1, kv.2)))
  show (OgoneSignature.mk l1 hm secret out).sign_string
      ((OgoneSignature.mk l1 hm secret out).merge_data
        ((OgoneSignature.mk l1 hm secret out).sort_data l1)) = _
  rw [hs]
  rfl

/-- C5 witness: swapping the two entries of a concrete mapping leaves
the signature unchanged. -/
theorem signature_perm_invariant_witness :
    (OgoneSignature.mk permA "sha1" "Mysecretsig1875!?" false).signature =
      (OgoneSignature.mk permB "sha1" "Mysecretsig1875!?" false).signature :=
  signature_perm_invariant false "sha1" "Mysecretsig1875!?" permA permB
    (List.Perm.swap ("amount", PyVal.int 1) ("currency", PyVal.str "EUR") [])

/-- C6: an entry whose uppercased key is not in the allow-list of the
current direction (SHA_IN_FILTER_WORDS when out = false,
SHA_OUT_FILTER_WORDS when out = true) is rejected by the filter and
never appears in the canonical sequence that feeds the preimage. -/
theorem absent_key_excluded (self : OgoneSignature) (data : List (String × PyVal))
    (k : String) (v : PyVal)
    (h : pyUpper k ∉ (if self.out = true then SHA_OUT_FILTER_WORDS else SHA_IN_FILTER_WORDS)) :
    self.filter_data (pyUpper k) v = false ∧ (pyUpper k, v) ∉ self.sort_data data := by
  have hfil : ∀ w : PyVal, self.filter_data (pyUpper k) w = false := by
    intro w
    rw [Bool.eq_false_iff]
    intro hc
    rcases (filter_data_eq_true self (pyUpper k) w).mp hc with ⟨_, hin, hout, _⟩
    cases hb : self.out with
    | false =>
      rw [hb] at h
      have := hin hb
      rw [pyUpper_idem] at this
      simp at h
      exact h this
    | true =>
      rw [hb] at h
      have := hout hb
      rw [pyUpper_idem] at this
      simp at h
      exact h this
  refine ⟨hfil v, ?_⟩
  intro hmem
  rcases mem_sort_data hmem with ⟨kv, _, heq, hker⟩
  have hk : pyUpper kv.1 = pyUpper k := (Prod.mk.injEq _ _ _ _).mp heq.symm |>.1
  rw [hk] at hker
  rw [hfil kv.2] at hker
  exact nomatch hker

/-- C6 witness: key "foobar" is in no allow-list, so the entry
("FOOBAR", 1) cannot appear in the canonical sequence of scenario 3. -/
theorem absent_key_excluded_witness :
    scenario3.filter_data (pyUpper "foobar") (.int 1) = false ∧
      (pyUpper "foobar", PyVal.int 1) ∉ scenario3.sort_data scenario3.data :=
  absent_key_excluded scenario3 scenario3.data "foobar" (.int 1) (by decide)

/-- C7: an entry whose value is the empty string or None never appears
in the canonical sequence, whatever its key. -/
theorem empty_value_excluded (self : OgoneSignature) (data : List (String × PyVal))
    (K : String) (v : PyVal) (h : v = .str "" ∨ v = .none) :
    (K, v) ∉ self.sort_data data := by
  intro hmem
  rcases mem_sort_data hmem with ⟨kv, _, heq, hfil⟩
  have hv : kv.2 = v := ((Prod.mk.injEq _ _ _ _).mp heq.symm).2
  rcases (filter_data_eq_true self (pyUpper kv.1) kv.2).mp hfil with ⟨hne, _, _, _⟩
  rw [hv] at hne
  exact hne h

/-- C7 witness: the allow-listed key AMOUNT with an empty value never
appears in the canonical sequence of scenario 3. -/
theorem empty_value_excluded_witness :
    ("AMOUNT", PyVal.str "") ∉ scenario3.sort_data scenario3.data :=
  empty_value_excluded scenario3 scenario3.data "AMOUNT" (.str "") (Or.inl rfl)

/-- C8: an entry whose key is exactly "SHASIGN" never appears in the
canonical sequence (its uppercased key is again "SHASIGN", which the
filter rejects). -/
theorem shasign_exact_excluded (self : OgoneSignature) (data : List (String × PyVal))
    (v : PyVal) : ("SHASIGN", v) ∉ self.sort_data data := by
  intro hmem
  exact sort_data_key_ne_shasign hmem rfl

/-- C8 witness: instantiation at scenario 3. -/
theorem shasign_exact_excluded_witness :
    ("SHASIGN", PyVal.str "1") ∉ scenario3.sort_data scenario3.data :=
  shasign_exact_excluded scenario3 scenario3.data (.str "1")

/-- C9 counterexample: a None secret passes the assertions of the
constructor (Python str of None is the non-empty string "None"), so
construction does not fail on a missing secret. -/
theorem init_checks_none_secret_passes :
    OgoneSignature.init_checks "sha1" PyVal.none = true := by rfl

/-- C9 (amended): construction succeeds iff the hash method is one of
sha1, sha256, sha512 and the stringified secret is non-empty; an
absent (None) secret stringifies to "None" and is therefore accepted,
only an empty-string secret is rejected. -/
theorem init_checks_iff (hm : String) (secret : PyVal) :
    OgoneSignature.init_checks hm secret = true ↔
      hm ∈ (["sha1", "sha256", "sha512"] : List String) ∧ pyStr secret ≠ "" := by
  unfold OgoneSignature.init_checks
  rw [Bool.and_eq_true]
  constructor
  · rintro ⟨h1, h2⟩
    refine ⟨List.mem_of_elem_eq_true h1, ?_⟩
    intro he
    rw [he] at h2
    simp at h2
  · rintro ⟨h1, h2⟩
    refine ⟨List.elem_eq_true_of_mem h1, ?_⟩
    simpa using h2

/-- C9 witness: a supported method with a non-empty secret passes the
checks of the constructor. -/
theorem init_checks_iff_witness :
    OgoneSignature.init_checks "sha1" (PyVal.str "x") = true :=
  (init_checks_iff "sha1" (PyVal.str "x")).mpr ⟨by decide, by decide⟩

/-- C10: the SHASIGN exclusion is applied to the uppercased key, so
any key that uppercases to "SHASIGN" (e.g. "shasign") is excluded from
the canonical sequence. -/
theorem shasign_upper_excluded (self : OgoneSignature) (data : List (String × PyVal))
    (k : String) (v : PyVal) (h : pyUpper k = "SHASIGN") :
    (pyUpper k, v) ∉ self.sort_data data := by
  intro hmem
  exact sort_data_key_ne_shasign hmem h

/-- C10 witness: the lower-case key "shasign" uppercases to "SHASIGN"
and is excluded. -/
theorem shasign_upper_excluded_witness :
    (pyUpper "shasign", PyVal.str "x") ∉ scenario3.sort_data scenario3.data :=
  shasign_upper_excluded scenario3 scenario3.data "shasign" (.str "x") (by rfl)
